import Mathlib

/-!
Shallow embedding of the `iitm-project-1` submission server: two FastAPI
variants, `src/api/server.py` (namespace `Api`: blocking retry dispatcher,
cumulative README policy, environment-sourced secret) and `src/server.py`
(namespace `Main`: fire-and-forget async dispatcher, replacing README
policy, hardcoded secret).  External collaborators — the GitHub hosting
API, the evaluation HTTP endpoint, and the process environment — are
modelled explicitly.  A `Failures` record injects the transient hosting
errors that the Python code observes as raised exceptions; the bare
`except:` blocks of the source are translated into the corresponding
explicit fallbacks.
-/

/-- An uploaded file in a submission (pydantic model `Attachment` in both
server files): a repository-relative filename, base64-encoded content, and
a mime type defaulting to `application/octet-stream`. -/
structure Attachment where
  filename : String
  content : String
  mime_type : String
deriving DecidableEq, Repr

/-- The validated request body (pydantic model `RequestPayload` in both
server files). -/
structure RequestPayload where
  email : String
  secret : String
  task : String
  round : Int
  nonce : String
  brief : String
  checks : List String
  evaluation_url : String
  attachments : List Attachment
deriving DecidableEq, Repr

/-- Outcome of a fallible call in the Python source: a normal `return`
(`ok`) or an uncaught exception carrying its message (`err`). -/
inductive Res (α : Type) where
  | ok : α → Res α
  | err : String → Res α
deriving DecidableEq, Repr

def Res.map {α β : Type} (f : α → β) : Res α → Res β
  | .ok a => .ok (f a)
  | .err e => .err e

/-- Value of a character of the standard base64 alphabet, `none` for any
character outside it. -/
def b64Val (c : Char) : Option Nat :=
  if 'A' ≤ c ∧ c ≤ 'Z' then some (c.toNat - 65)
  else if 'a' ≤ c ∧ c ≤ 'z' then some (c.toNat - 97 + 26)
  else if '0' ≤ c ∧ c ≤ '9' then some (c.toNat - 48 + 52)
  else if c = '+' then some 62
  else if c = '/' then some 63
  else none

/-- Reassemble one base64 quantum into output bytes: four data characters
give three bytes, three give two, two give one. -/
def b64Quad (a b : Nat) (c d : Option Nat) : List Nat :=
  match c, d with
  | some c, some d => [a * 4 + b / 16, (b % 16) * 16 + c / 4, (c % 4) * 64 + d]
  | some c, none => [a * 4 + b / 16, (b % 16) * 16 + c / 4]
  | none, _ => [a * 4 + b / 16]

/-- Decode a list of base64 characters four at a time.  A list whose length
is not a multiple of four, or a padding character in the first two slots of
a quantum, is a decoding error (`none`); decoding stops at the first padded
quantum, as CPython's `binascii` does. -/
def decodeQuads : List Char → Option (List Nat)
  | [] => some []
  | a :: b :: c :: d :: rest =>
    match b64Val a, b64Val b with
    | some va, some vb =>
      if c = '=' then some (b64Quad va vb none none)
      else
        match b64Val c with
        | some vc =>
          if d = '=' then some (b64Quad va vb (some vc) none)
          else
            match b64Val d with
            | some vd => (decodeQuads rest).map (fun tail => b64Quad va vb (some vc) (some vd) ++ tail)
            | none => none
        | none => none
    | _, _ => none
  | _ => none

/-- Model of Python `base64.b64decode` with its default `validate=False`:
characters outside the base64 alphabet (other than `=`) are discarded
first, then the remaining text must consist of whole four-character quanta
or `binascii.Error` is raised (modelled as `none`). -/
def pyB64Decode (s : String) : Option (List Nat) :=
  decodeQuads (s.data.filter (fun c => (b64Val c).isSome ∨ c = '='))

/-- Content of a repository file: raw bytes (decoded attachments) or text
(README and LICENSE writes). -/
inductive FileData where
  | bytes : List Nat → FileData
  | text : String → FileData
deriving DecidableEq, Repr

/-- Read a file back as text, as `decoded_content.decode()` does; byte
files are read through the character codes (faithful for ASCII content). -/
def FileData.asText : FileData → String
  | .bytes l => String.mk (l.map Char.ofNat)
  | .text s => s

/-- The remote repository's file tree, path ↦ content, insertion-ordered. -/
abbrev RepoState := List (String × FileData)

def lookupFile : RepoState → String → Option FileData
  | [], _ => none
  | (p, d) :: rest, q => if p = q then some d else lookupFile rest q

def setFile : RepoState → String → FileData → RepoState
  | [], q, v => [(q, v)]
  | (p, d) :: rest, q, v => if p = q then (q, v) :: rest else (p, d) :: setFile rest q v

/-- Injected transient hosting-API failures, per path: whether
`get_contents`, `update_file` or `create_file` raises on this call.  The
Python source observes these as exceptions caught (or not) by its bare
`except:` blocks. -/
structure Failures where
  getContentsFails : String → Bool
  updateFails : String → Bool
  createFails : String → Bool

/-- The failure-free hosting collaborator. -/
def noFailures : Failures :=
  { getContentsFails := fun _ => false, updateFails := fun _ => false, createFails := fun _ => false }

/-- `repo.create_file(path, message, content)`: the hosting REST API
rejects a create on an existing path (422), so it fails whenever the file
already exists, and additionally on an injected transient error. -/
def createFileOp (fl : Failures) (st : RepoState) (path : String) (data : FileData) : Res RepoState :=
  if (lookupFile st path).isSome then .err ("422: create failed, " ++ path ++ " already exists")
  else if fl.createFails path then .err ("create_file failed: " ++ path)
  else .ok (setFile st path data)

/-- One iteration of the attachment loop shared by both servers:
`content = base64.b64decode(attach.content.encode())` (outside any
`try:`, so a decode error propagates), then
`try: get_contents; update_file except: create_file`.  Returns the new
repository state and the commit message used. -/
def attachStep (fl : Failures) (st : RepoState) (a : Attachment) : Res (RepoState × String) :=
  match pyB64Decode a.content with
  | none => .err ("binascii.Error: invalid base64 in attachment " ++ a.filename)
  | some bs =>
    match lookupFile st a.filename with
    | some _ =>
      if fl.getContentsFails a.filename ∨ fl.updateFails a.filename then
        (createFileOp fl st a.filename (.bytes bs)).map (fun st1 => (st1, "Add " ++ a.filename))
      else .ok (setFile st a.filename (.bytes bs), "Update " ++ a.filename)
    | none => (createFileOp fl st a.filename (.bytes bs)).map (fun st1 => (st1, "Add " ++ a.filename))

/-- The `for attach in attachments:` loop of `init_or_update_repo`, run in
input order.  Returns the repository state reached (partial on error, since
remote writes are durable), the commit messages of the successful writes,
and the message of the first uncaught exception, if any, which aborts the
rest of the loop. -/
def processAttachments (fl : Failures) (st : RepoState) : List Attachment → RepoState × List String × Option String
  | [] => (st, [], none)
  | a :: rest =>
    match attachStep fl st a with
    | .err e => (st, [], some e)
    | .ok (st1, m) =>
      match processAttachments fl st1 rest with
      | (st2, ms, e) => (st2, m :: ms, e)

/-- The round section appended to the README by `src/api/server.py`'s
cumulative policy (leading blank line included, as in the f-string). -/
def roundSection (r : Int) (brief ts : String) : String :=
  "\n\n## Round " ++ toString r ++ " Updates\n" ++ brief ++ "\nUpdated: " ++ ts

/-- The fixed MIT license text both servers write on round 1. -/
def licenseText : String := "MIT License\n\nCopyright (c) ..."

/-- Round-1 LICENSE creation: `try: repo.create_file("LICENSE", ...)
except: pass` — any failure (including an existing file) is swallowed. -/
def licenseStep (fl : Failures) (st : RepoState) : RepoState :=
  match createFileOp fl st "LICENSE" (.text licenseText) with
  | .ok st1 => st1
  | .err _ => st

/-- The triple returned by a successful `init_or_update_repo`. -/
structure SyncResult where
  html_url : String
  commit_sha : String
  pages_url : String
deriving DecidableEq, Repr

/-- Observable outcome of one `init_or_update_repo` call: the repository
file tree afterwards (partial on error, since remote writes are durable),
whether `create_repo` was called and with which `private` flag, the commit
messages of the attachment loop in order, the uncaught exception if the
call raised, and the returned triple if it did not. -/
structure SyncRun where
  repoAfter : RepoState
  createdRepo : Option Bool
  msgs : List String
  error : Option String
  result : Option SyncResult
deriving DecidableEq, Repr

/-- The external state a call runs against: whether the target repository
exists, its file tree, the authenticated user's login, and the commit id
that `repo.get_commits()[0].sha` reads back after the writes (modelled
opaquely — no claim depends on its value). -/
structure World where
  repoExists : Bool
  repo : RepoState
  login : String
  latestSha : String
deriving DecidableEq, Repr

namespace Api

/-- Startup configuration of `src/api/server.py`. -/
structure Config where
  github_token : String
  secret_form : String
deriving DecidableEq, Repr

/-- Module-level startup of `src/api/server.py`:
`GITHUB_TOKEN = os.environ.get("GITHUB_TOKEN")` must be truthy (absent or
empty raises `RuntimeError`), and
`SECRET_FORM = os.environ.get("SECRET_FORM", "Ojal2")` falls back to the
local-testing value only when the variable is unset. -/
def load_config (env : String → Option String) : Res Config :=
  match env "GITHUB_TOKEN" with
  | none => .err "Set the GITHUB_TOKEN environment variable in Vercel"
  | some t =>
    if t = "" then .err "Set the GITHUB_TOKEN environment variable in Vercel"
    else .ok { github_token := t, secret_form := (env "SECRET_FORM").getD "Ojal2" }

/-- The cumulative README step of `src/api/server.py`:
`readme_text = f"# {task}\n\n"`, then `try:` read the existing README,
append the round section to its text and update; on any exception the
`except:` branch appends the round section to whatever `readme_text` held
at the raise point and calls `create_file` (which fails if the README does
exist). -/
def readmeStep (fl : Failures) (st : RepoState) (task : String) (r : Int) (brief ts : String) : Res RepoState :=
  match lookupFile st "README.md" with
  | some fd =>
    if fl.getContentsFails "README.md" then
      createFileOp fl st "README.md" (.text ("# " ++ task ++ "\n\n" ++ roundSection r brief ts))
    else
      if fl.updateFails "README.md" then
        createFileOp fl st "README.md"
          (.text (fd.asText ++ roundSection r brief ts ++ roundSection r brief ts))
      else .ok (setFile st "README.md" (.text (fd.asText ++ roundSection r brief ts)))
  | none =>
    createFileOp fl st "README.md" (.text ("# " ++ task ++ "\n\n" ++ roundSection r brief ts))

/-- Steps of `init_or_update_repo` after the repository is resolved or
created: attachment loop, README update, round-1 LICENSE, read back the
latest commit and build the returned triple. -/
def sync_after_resolve (st0 : RepoState) (created : Option Bool) (fl : Failures)
    (login sha task : String) (r : Int) (brief ts : String) (as : List Attachment) : SyncRun :=
  match processAttachments fl st0 as with
  | (st1, ms, some e) =>
    { repoAfter := st1, createdRepo := created, msgs := ms, error := some e, result := none }
  | (st1, ms, none) =>
    match readmeStep fl st1 task r brief ts with
    | .err e =>
      { repoAfter := st1, createdRepo := created, msgs := ms, error := some e, result := none }
    | .ok st2 =>
      let st3 := if r = 1 then licenseStep fl st2 else st2
      { repoAfter := st3, createdRepo := created, msgs := ms, error := none,
        result := some { html_url := "https://github.com/" ++ login ++ "/" ++ task,
                         commit_sha := sha,
                         pages_url := "https://" ++ login ++ ".github.io/" ++ task ++ "/" } }

/-- `init_or_update_repo(task_name, round_index, brief, attachments)` of
`src/api/server.py`: `try: user.get_repo(task_name) except:` create the
repository with `private=False` when `round_index == 1`, else raise
`RuntimeError`; then run the remaining steps. -/
def init_or_update_repo (w : World) (fl : Failures) (task : String) (r : Int)
    (brief ts : String) (as : List Attachment) : SyncRun :=
  if w.repoExists then
    sync_after_resolve w.repo none fl w.login w.latestSha task r brief ts as
  else if r = 1 then
    sync_after_resolve [] (some false) fl w.login w.latestSha task r brief ts as
  else
    { repoAfter := w.repo, createdRepo := none, msgs := [],
      error := some ("Repo " ++ task ++ " does not exist for round " ++ toString r),
      result := none }

/-- `post_evaluation`'s retry loop, one call per remaining attempt.
`oracle i` is attempt `i`'s outcome: `none` for a transport error (caught
by the bare `except:`), `some s` for an HTTP response with status `s`.
Only status 200 returns `true`; every other attempt outcome falls through
to `time.sleep(delay); delay *= 2`.  Returns the result and the total
seconds slept. -/
def post_evaluation_go (oracle : Nat → Option Nat) : Nat → Nat → Nat → Nat → Bool × Nat
  | 0, _, _, slept => (false, slept)
  | n + 1, i, delay, slept =>
    if oracle i = some 200 then (true, slept)
    else post_evaluation_go oracle n (i + 1) (delay * 2) (slept + delay)

/-- `post_evaluation(url, payload, max_retries=5)` of `src/api/server.py`:
up to `max_retries` attempts starting with `delay = 1`; returns `(result,
total seconds slept)` and never raises (the request is wrapped in a bare
`except:` and the tail of the loop body always runs). -/
def post_evaluation (oracle : Nat → Option Nat) (max_retries : Nat) : Bool × Nat :=
  post_evaluation_go oracle max_retries 0 1 0

end Api

namespace Main

/-- Startup configuration of `src/server.py`. -/
structure Config where
  github_token : String
  valid_secret : String
deriving DecidableEq, Repr

/-- The hardcoded submission secret of `src/server.py`:
`VALID_SECRET = "Ojal2"  # for local testing` — no environment read. -/
def VALID_SECRET : String := "Ojal2"

/-- Module-level startup of `src/server.py`:
`GITHUB_TOKEN = os.environ.get("GITHUB_TOKEN")` must be truthy (absent or
empty raises `RuntimeError`); the secret is the hardcoded `VALID_SECRET`
constant, independent of the environment. -/
def load_config (env : String → Option String) : Res Config :=
  match env "GITHUB_TOKEN" with
  | none => .err "Set the GITHUB_TOKEN environment variable"
  | some t =>
    if t = "" then .err "Set the GITHUB_TOKEN environment variable"
    else .ok { github_token := t, valid_secret := VALID_SECRET }

/-- The replacing README step of `src/server.py`: build
`readme_content = f"# {task}\n\nBrief:\n{brief}\n\nUpdated: {ts}"`, then
`try:` read the existing README and update it with that content; on any
exception the `except:` branch calls `create_file` with the same content
(which fails if the README does exist). -/
def readmeStep (fl : Failures) (st : RepoState) (task : String) (brief ts : String) : Res RepoState :=
  let content := "# " ++ task ++ "\n\nBrief:\n" ++ brief ++ "\n\nUpdated: " ++ ts
  match lookupFile st "README.md" with
  | some _ =>
    if fl.getContentsFails "README.md" ∨ fl.updateFails "README.md" then
      createFileOp fl st "README.md" (.text content)
    else .ok (setFile st "README.md" (.text content))
  | none => createFileOp fl st "README.md" (.text content)

/-- Steps of `init_or_update_repo` after the repository is resolved or
created: attachment loop, README overwrite, round-1 LICENSE, read back the
latest commit and build the returned triple. -/
def sync_after_resolve (st0 : RepoState) (created : Option Bool) (fl : Failures)
    (login sha task : String) (r : Int) (brief ts : String) (as : List Attachment) : SyncRun :=
  match processAttachments fl st0 as with
  | (st1, ms, some e) =>
    { repoAfter := st1, createdRepo := created, msgs := ms, error := some e, result := none }
  | (st1, ms, none) =>
    match readmeStep fl st1 task brief ts with
    | .err e =>
      { repoAfter := st1, createdRepo := created, msgs := ms, error := some e, result := none }
    | .ok st2 =>
      let st3 := if r = 1 then licenseStep fl st2 else st2
      { repoAfter := st3, createdRepo := created, msgs := ms, error := none,
        result := some { html_url := "https://github.com/" ++ login ++ "/" ++ task,
                         commit_sha := sha,
                         pages_url := "https://" ++ login ++ ".github.io/" ++ task ++ "/" } }

/-- `init_or_update_repo(task_name, round_index, brief, attachments)` of
`src/server.py`: `try: user.get_repo(task_name) except:` create the
repository with `private=False` when `round_index == 1`, else raise
`RuntimeError`; then run the remaining steps. -/
def init_or_update_repo (w : World) (fl : Failures) (task : String) (r : Int)
    (brief ts : String) (as : List Attachment) : SyncRun :=
  if w.repoExists then
    sync_after_resolve w.repo none fl w.login w.latestSha task r brief ts as
  else if r = 1 then
    sync_after_resolve [] (some false) fl w.login w.latestSha task r brief ts as
  else
    { repoAfter := w.repo, createdRepo := none, msgs := [],
      error := some ("Repo " ++ task ++ " does not exist for round " ++ toString r),
      result := none }

/-- Log level produced by one event in `src/server.py`. -/
inductive LogLevel where
  | info
  | warn
  | error
deriving DecidableEq, Repr

/-- `post_evaluation_async(url, payload)` of `src/server.py`: one POST
attempt; logs info on HTTP 200, a warning on any other status, an error on
a transport exception — and never propagates failure to the caller. -/
def post_evaluation_async (resp : Option Nat) : LogLevel :=
  match resp with
  | some 200 => .info
  | some _ => .warn
  | none => .error

end Main

/-- How a dispatcher issues its HTTP POST: whether the request carries a
`Content-Type: application/json` header, and its per-attempt timeout in
seconds (`none` = unbounded). -/
structure PostConfig where
  content_type_json : Bool
  timeout : Option Nat
deriving DecidableEq, Repr

/-- The blocking dispatcher's request shape (`src/api/server.py` line 107):
`requests.post(url, json=payload, headers={"Content-Type":
"application/json"})` — the header is set explicitly, but no `timeout`
keyword is passed, and the `requests` library default is no timeout. -/
def Api.post_request_config : PostConfig :=
  { content_type_json := true, timeout := none }

/-- The async dispatcher's request shape (`src/server.py` lines 107-108):
`httpx.AsyncClient(timeout=10)` bounds every attempt at 10 seconds, and
`client.post(url, json=payload)` sets `Content-Type: application/json`
because the body is passed via `json=`. -/
def Main.post_request_config : PostConfig :=
  { content_type_json := true, timeout := some 10 }

/-- The JSON body of a `handle_request` response. -/
inductive RespBody where
  | invalidSecret
  | okBody (repo_url commit_sha pages_url : String) (message : Option String)
  | serverError
deriving DecidableEq, Repr

/-- An HTTP response: FastAPI returns a plain dict with status 200; an
exception escaping the endpoint surfaces as a 500. -/
structure Response where
  status : Nat
  body : RespBody
deriving DecidableEq, Repr

/-- Observable outcome of one `handle_request` call: the HTTP response,
the synchronizer run if one was invoked (`none` means no hosting-API call
was made at all), and the evaluation URLs a dispatch was issued to. -/
structure HandleRun where
  response : Response
  sync : Option SyncRun
  dispatches : List String
deriving DecidableEq, Repr

/-- `handle_request` of `src/api/server.py`: secret check against
`SECRET_FORM` (mismatch returns `{"error": "Invalid secret"}` as a plain
dict, hence status 200, before any other work), then
`init_or_update_repo`, then the blocking `post_evaluation`, then the
success body (no `message` field). -/
def Api.handle_request (secret_form : String) (w : World) (fl : Failures) (ts : String)
    (p : RequestPayload) : HandleRun :=
  if p.secret ≠ secret_form then
    { response := { status := 200, body := .invalidSecret }, sync := none, dispatches := [] }
  else
    let run := Api.init_or_update_repo w fl p.task p.round p.brief ts p.attachments
    match run.result with
    | none => { response := { status := 500, body := .serverError }, sync := some run, dispatches := [] }
    | some res =>
      { response := { status := 200, body := .okBody res.html_url res.commit_sha res.pages_url none },
        sync := some run, dispatches := [p.evaluation_url] }

/-- `handle_request` of `src/server.py`: secret check against
`VALID_SECRET` (mismatch returns `{"error": "Invalid secret"}` as a plain
dict, hence status 200, before any other work), then
`init_or_update_repo`, then `asyncio.create_task(post_evaluation_async(...))`,
then the success body with its `message` field. -/
def Main.handle_request (w : World) (fl : Failures) (ts : String)
    (p : RequestPayload) : HandleRun :=
  if p.secret ≠ Main.VALID_SECRET then
    { response := { status := 200, body := .invalidSecret }, sync := none, dispatches := [] }
  else
    let run := Main.init_or_update_repo w fl p.task p.round p.brief ts p.attachments
    match run.result with
    | none => { response := { status := 500, body := .serverError }, sync := some run, dispatches := [] }
    | some res =>
      { response := { status := 200,
                      body := .okBody res.html_url res.commit_sha res.pages_url
                        (some "Repo updated! Evaluation POST sent in background.") },
        sync := some run, dispatches := [p.evaluation_url] }

/-- Modelled from the spec: §4.2 step 2 — "For each attachment, in input
order: decode base64 content; upsert the file at its declared path with
commit message `Update <filename>` or `Add <filename>` depending on
whether it previously existed."  Written from the spec's words, to be
compared with the source-derived `processAttachments`. -/
def specSyncLoop : RepoState → List Attachment → Option (RepoState × List String)
  | st, [] => some (st, [])
  | st, a :: rest =>
    match pyB64Decode a.content with
    | none => none
    | some bs =>
      let msg := if (lookupFile st a.filename).isSome
                 then "Update " ++ a.filename else "Add " ++ a.filename
      match specSyncLoop (setFile st a.filename (.bytes bs)) rest with
      | none => none
      | some (st2, ms) => some (st2, msg :: ms)

theorem lookupFile_setFile_self (st : RepoState) (q : String) (v : FileData) :
    lookupFile (setFile st q v) q = some v := by
  induction st with
  | nil => simp [setFile, lookupFile]
  | cons hd rest ih =>
    obtain ⟨p, d⟩ := hd
    by_cases hpq : p = q
    · simp [setFile, lookupFile, hpq]
    · simp [setFile, lookupFile, hpq, ih]

theorem setFile_setFile_self (st : RepoState) (q : String) (v w : FileData) :
    setFile (setFile st q v) q w = setFile st q w := by
  induction st with
  | nil => simp [setFile]
  | cons hd rest ih =>
    obtain ⟨p, d⟩ := hd
    by_cases hpq : p = q
    · simp [setFile, hpq]
    · simp [setFile, hpq, ih]

theorem processAttachments_append_ok (fl : Failures) (st : RepoState)
    (pre rest : List Attachment) (st1 : RepoState) (ms : List String)
    (h : processAttachments fl st pre = (st1, ms, none)) :
    processAttachments fl st (pre ++ rest) =
      ((processAttachments fl st1 rest).1,
        ms ++ (processAttachments fl st1 rest).2.1,
        (processAttachments fl st1 rest).2.2) := by
  induction pre generalizing st ms with
  | nil =>
    simp only [processAttachments, Prod.mk.injEq] at h
    obtain ⟨rfl, rfl, -⟩ := h
    simp
  | cons a pre ih =>
    rw [List.cons_append]
    cases hstep : attachStep fl st a with
    | err e =>
      simp only [processAttachments, hstep] at h
      simp at h
    | ok p =>
      obtain ⟨sta, m⟩ := p
      simp only [processAttachments, hstep] at h ⊢
      rcases hpre : processAttachments fl sta pre with ⟨stb, msb, eb⟩
      rw [hpre] at h
      simp only [Prod.mk.injEq] at h
      obtain ⟨rfl, hm, he⟩ := h
      cases eb with
      | none =>
        rw [ih sta msb hpre]
        simp [← hm]
      | some e => simp at he

theorem sync_after_resolve_createdRepo_api (st0 : RepoState) (created : Option Bool)
    (fl : Failures) (login sha task : String) (r : Int) (brief ts : String)
    (as : List Attachment) :
    (Api.sync_after_resolve st0 created fl login sha task r brief ts as).createdRepo = created := by
  unfold Api.sync_after_resolve
  repeat' split
  all_goals rfl

theorem sync_after_resolve_createdRepo_main (st0 : RepoState) (created : Option Bool)
    (fl : Failures) (login sha task : String) (r : Int) (brief ts : String)
    (as : List Attachment) :
    (Main.sync_after_resolve st0 created fl login sha task r brief ts as).createdRepo = created := by
  unfold Main.sync_after_resolve
  repeat' split
  all_goals rfl

/-- C1: for every submission whose secret differs from the configured
value, `handle_request` (both server variants) returns
`{"error": "Invalid secret"}` with HTTP success status 200 and performs no
side effects: the synchronizer is never invoked (so no hosting-API call is
made) and no notification dispatch occurs. -/
theorem c1_invalid_secret_no_side_effects (s : String) (w : World) (fl : Failures)
    (ts : String) (p : RequestPayload) (hA : p.secret ≠ s) (hM : p.secret ≠ Main.VALID_SECRET) :
    Api.handle_request s w fl ts p
      = { response := { status := 200, body := .invalidSecret }, sync := none, dispatches := [] }
    ∧ Main.handle_request w fl ts p
      = { response := { status := 200, body := .invalidSecret }, sync := none, dispatches := [] } := by
  constructor
  · simp [Api.handle_request, hA]
  · simp [Main.handle_request, hM]

/-- Witness for C1 at a concrete submission carrying a wrong secret. -/
theorem c1_witness :
    Api.handle_request "Ojal2" { repoExists := true, repo := [], login := "u", latestSha := "s" }
        noFailures "T"
        { email := "a@b.c", secret := "wrong", task := "demo", round := 1, nonce := "n",
          brief := "b", checks := [], evaluation_url := "http://e", attachments := [] }
      = { response := { status := 200, body := .invalidSecret }, sync := none, dispatches := [] }
    ∧ Main.handle_request { repoExists := true, repo := [], login := "u", latestSha := "s" }
        noFailures "T"
        { email := "a@b.c", secret := "wrong", task := "demo", round := 1, nonce := "n",
          brief := "b", checks := [], evaluation_url := "http://e", attachments := [] }
      = { response := { status := 200, body := .invalidSecret }, sync := none, dispatches := [] } :=
  c1_invalid_secret_no_side_effects "Ojal2" _ noFailures "T" _ (by decide) (by decide)

/-- C2: against a nonexistent repository, `init_or_update_repo` with round
1 creates it with `private=False` (public visibility) and proceeds with
the synchronization from an empty tree, while any round above 1 raises the
repo-missing `RuntimeError` with no side effects: no repository is
created, no file is written, and the remote tree is unchanged.  Holds for
both server variants. -/
theorem c2_round1_creates_later_round_fails (w : World) (fl : Failures) (task : String)
    (r : Int) (brief ts : String) (as : List Attachment) (h : w.repoExists = false) :
    (Api.init_or_update_repo w fl task 1 brief ts as
        = Api.sync_after_resolve [] (some false) fl w.login w.latestSha task 1 brief ts as
      ∧ (Api.init_or_update_repo w fl task 1 brief ts as).createdRepo = some false)
    ∧ (Main.init_or_update_repo w fl task 1 brief ts as
        = Main.sync_after_resolve [] (some false) fl w.login w.latestSha task 1 brief ts as
      ∧ (Main.init_or_update_repo w fl task 1 brief ts as).createdRepo = some false)
    ∧ (1 < r →
        Api.init_or_update_repo w fl task r brief ts as
          = { repoAfter := w.repo, createdRepo := none, msgs := [],
              error := some ("Repo " ++ task ++ " does not exist for round " ++ toString r),
              result := none }
        ∧ Main.init_or_update_repo w fl task r brief ts as
          = { repoAfter := w.repo, createdRepo := none, msgs := [],
              error := some ("Repo " ++ task ++ " does not exist for round " ++ toString r),
              result := none }) := by
  refine ⟨⟨?_, ?_⟩, ⟨?_, ?_⟩, ?_⟩
  · simp [Api.init_or_update_repo, h]
  · simp [Api.init_or_update_repo, h, sync_after_resolve_createdRepo_api]
  · simp [Main.init_or_update_repo, h]
  · simp [Main.init_or_update_repo, h, sync_after_resolve_createdRepo_main]
  · intro hr
    have h1 : ¬(r = 1) := by omega
    constructor
    · simp [Api.init_or_update_repo, h, h1]
    · simp [Main.init_or_update_repo, h, h1]

/-- Witness for C2: round 2 against a missing repository raises and leaves
the world untouched. -/
theorem c2_witness :
    (Api.init_or_update_repo { repoExists := false, repo := [], login := "u", latestSha := "s" }
        noFailures "demo" 2 "b" "T" []).error
      = some "Repo demo does not exist for round 2" := by
  have h := c2_round1_creates_later_round_fails
    { repoExists := false, repo := [], login := "u", latestSha := "s" }
    noFailures "demo" 2 "b" "T" [] rfl
  rw [(h.2.2 (by omega)).1]
  decide

/-- C3 counterexample: with five consecutive failing attempts the blocking
dispatcher sleeps 1+2+4+8+16 = 31 seconds in total, not the claimed 15:
the source sleeps after every failed attempt, including the fifth. -/
theorem c3_counterexample :
    Api.post_evaluation (fun _ => none) 5 = (false, 31)
    ∧ (Api.post_evaluation (fun _ => none) 5).2 ≠ 15 := by
  decide

/-- C3 amended: an attempt succeeds iff its HTTP status is exactly 200
(any other status or a transport error fails the attempt); given 5
consecutive failing attempts `post_evaluation` waits a total of
1+2+4+8+16 = 31 seconds (a doubling delay after every failed attempt,
including the last) and then returns `false` without raising. -/
theorem c3_five_failures_backoff (oracle : Nat → Option Nat)
    (h : ∀ i, i < 5 → oracle i ≠ some 200) :
    Api.post_evaluation oracle 5 = (false, 31) := by
  have h0 := h 0 (by omega)
  have h1 := h 1 (by omega)
  have h2 := h 2 (by omega)
  have h3 := h 3 (by omega)
  have h4 := h 4 (by omega)
  simp [Api.post_evaluation, Api.post_evaluation_go, h0, h1, h2, h3, h4]

/-- Witness for C3 at a concrete always-500 endpoint. -/
theorem c3_witness : Api.post_evaluation (fun _ => some 500) 5 = (false, 31) :=
  c3_five_failures_backoff (fun _ => some 500) (by intro i _; simp)

/-- C4: inside the attachment-upsert loop, a failing file upsert aborts the
whole synchronization: if a prefix of the attachments has been processed
successfully and the next attachment's upsert raises, `init_or_update_repo`
(both variants) propagates exactly that exception and produces no result —
per-file failures are not caught or suppressed. -/
theorem c4_upsert_failure_aborts_sync (w : World) (fl : Failures) (task : String) (r : Int)
    (brief ts : String) (pre post : List Attachment) (a : Attachment) (st1 : RepoState)
    (ms : List String) (e : String)
    (hex : w.repoExists = true)
    (hpre : processAttachments fl w.repo pre = (st1, ms, none))
    (hfail : attachStep fl st1 a = .err e) :
    (Api.init_or_update_repo w fl task r brief ts (pre ++ a :: post)).error = some e
    ∧ (Api.init_or_update_repo w fl task r brief ts (pre ++ a :: post)).result = none
    ∧ (Main.init_or_update_repo w fl task r brief ts (pre ++ a :: post)).error = some e
    ∧ (Main.init_or_update_repo w fl task r brief ts (pre ++ a :: post)).result = none := by
  have hall : processAttachments fl w.repo (pre ++ a :: post) = (st1, ms, some e) := by
    rw [processAttachments_append_ok fl w.repo pre (a :: post) st1 ms hpre]
    simp [processAttachments, hfail]
  refine ⟨?_, ?_, ?_, ?_⟩ <;>
    simp [Api.init_or_update_repo, Main.init_or_update_repo, hex,
      Api.sync_after_resolve, Main.sync_after_resolve, hall]

/-- Witness for C4: a transient `create_file` failure on the only
attachment aborts the synchronization with that exception. -/
theorem c4_witness :
    (Api.init_or_update_repo { repoExists := true, repo := [], login := "u", latestSha := "s" }
        { getContentsFails := fun _ => false, updateFails := fun _ => false,
          createFails := fun p => p == "x.txt" }
        "demo" 2 "b" "T" [{ filename := "x.txt", content := "aGk=", mime_type := "m" }]).error
      = some "create_file failed: x.txt" := by
  have h := c4_upsert_failure_aborts_sync
    { repoExists := true, repo := [], login := "u", latestSha := "s" }
    { getContentsFails := fun _ => false, updateFails := fun _ => false,
      createFails := fun p => p == "x.txt" }
    "demo" 2 "b" "T" [] [] { filename := "x.txt", content := "aGk=", mime_type := "m" }
    [] [] "create_file failed: x.txt" rfl rfl (by decide)
  exact h.1

/-- C5: README policies.  In `src/api/server.py` (cumulative), an existing
README becomes the existing content followed by the round section, and an
absent README is created as the task title plus that same round section;
in `src/server.py` (replacing), the README is always overwritten with
`# <task>\n\nBrief:\n<brief>\n\nUpdated: <timestamp>`, discarding prior
rounds' text; and the round section is literally
`\n\n## Round <round> Updates\n<brief>\nUpdated: <timestamp>`. -/
theorem c5_readme_policies :
    (∀ (st : RepoState) (task : String) (r : Int) (brief ts t : String),
       lookupFile st "README.md" = some (.text t) →
       Api.readmeStep noFailures st task r brief ts
         = .ok (setFile st "README.md" (.text (t ++ roundSection r brief ts))))
    ∧ (∀ (st : RepoState) (task : String) (r : Int) (brief ts : String),
       lookupFile st "README.md" = none →
       Api.readmeStep noFailures st task r brief ts
         = .ok (setFile st "README.md" (.text ("# " ++ task ++ "\n\n" ++ roundSection r brief ts))))
    ∧ (∀ (st : RepoState) (task brief ts : String),
       Main.readmeStep noFailures st task brief ts
         = .ok (setFile st "README.md"
             (.text ("# " ++ task ++ "\n\nBrief:\n" ++ brief ++ "\n\nUpdated: " ++ ts))))
    ∧ (∀ (r : Int) (brief ts : String),
       roundSection r brief ts
         = "\n\n## Round " ++ toString r ++ " Updates\n" ++ brief ++ "\nUpdated: " ++ ts) := by
  refine ⟨?_, ?_, ?_, ?_⟩
  · intro st task r brief ts t hlk
    simp [Api.readmeStep, hlk, noFailures, FileData.asText]
  · intro st task r brief ts hlk
    simp [Api.readmeStep, hlk, noFailures, createFileOp]
  · intro st task brief ts
    cases hlk : lookupFile st "README.md" with
    | some fd => simp [Main.readmeStep, hlk, noFailures]
    | none => simp [Main.readmeStep, hlk, noFailures, createFileOp]
  · intro r brief ts
    rfl

/-- Witness for C5: appending a round-2 section to an existing README. -/
theorem c5_witness :
    Api.readmeStep noFailures [("README.md", FileData.text "old")] "demo" 2 "b" "T"
      = .ok (setFile [("README.md", FileData.text "old")] "README.md"
          (.text ("old" ++ roundSection 2 "b" "T"))) :=
  c5_readme_policies.1 [("README.md", FileData.text "old")] "demo" 2 "b" "T" "old" rfl

/-- C6: file upsert is idempotent: if upserting attachment `a` succeeded
and produced state `st1`, re-running the identical upsert on `st1`
succeeds, takes the update branch (commit message `Update <filename>`,
not a duplicate create) and leaves the repository state unchanged. -/
theorem c6_upsert_idempotent (st st1 : RepoState) (a : Attachment) (m1 : String)
    (h : attachStep noFailures st a = .ok (st1, m1)) :
    attachStep noFailures st1 a = .ok (st1, "Update " ++ a.filename) := by
  unfold attachStep at h ⊢
  cases hdec : pyB64Decode a.content with
  | none => rw [hdec] at h; simp at h
  | some bs =>
    rw [hdec] at h
    cases hlk : lookupFile st a.filename with
    | some fd =>
      rw [hlk] at h
      simp [noFailures] at h
      obtain ⟨hst, -⟩ := h
      subst hst
      simp [lookupFile_setFile_self, noFailures, setFile_setFile_self]
    | none =>
      rw [hlk] at h
      simp [noFailures, createFileOp, hlk, Res.map] at h
      obtain ⟨hst, -⟩ := h
      subst hst
      simp [lookupFile_setFile_self, noFailures, setFile_setFile_self]

/-- Witness for C6: the second run of an identical upsert updates in place
and preserves the state created by the first run. -/
theorem c6_witness :
    attachStep noFailures [("f.txt", FileData.bytes [104, 105])]
        { filename := "f.txt", content := "aGk=", mime_type := "m" }
      = .ok ([("f.txt", FileData.bytes [104, 105])], "Update " ++ "f.txt") :=
  c6_upsert_idempotent [] [("f.txt", FileData.bytes [104, 105])]
    { filename := "f.txt", content := "aGk=", mime_type := "m" } ("Add " ++ "f.txt") (by decide)

/-- C7: the source attachment loop refines the spec's description:
whenever the spec-side loop (process attachments in input order, decode
base64, upsert the decoded bytes at the declared path, commit message
`Update <filename>` if the file previously existed, else `Add <filename>`)
produces a final state and message list, the failure-free source loop
produces exactly that state, those messages in that order, and no error. -/
theorem c7_loop_matches_spec (st : RepoState) (as : List Attachment) (st2 : RepoState)
    (ms : List String) (h : specSyncLoop st as = some (st2, ms)) :
    processAttachments noFailures st as = (st2, ms, none) := by
  induction as generalizing st ms with
  | nil =>
    simp only [specSyncLoop, Option.some.injEq, Prod.mk.injEq] at h
    obtain ⟨rfl, rfl⟩ := h
    simp [processAttachments]
  | cons a rest ih =>
    cases hdec : pyB64Decode a.content with
    | none => simp [specSyncLoop, hdec] at h
    | some bs =>
      cases hrec : specSyncLoop (setFile st a.filename (.bytes bs)) rest with
      | none => simp [specSyncLoop, hdec, hrec] at h
      | some p =>
        obtain ⟨st3, ms3⟩ := p
        simp only [specSyncLoop, hdec, hrec, Option.some.injEq, Prod.mk.injEq] at h
        obtain ⟨rfl, hm⟩ := h
        have hstep : attachStep noFailures st a
            = .ok (setFile st a.filename (.bytes bs),
                if (lookupFile st a.filename).isSome
                then "Update " ++ a.filename else "Add " ++ a.filename) := by
          unfold attachStep
          rw [hdec]
          cases hlk : lookupFile st a.filename with
          | some fd => simp [noFailures, hlk]
          | none => simp [noFailures, hlk, createFileOp, Res.map]
        simp only [processAttachments, hstep]
        rw [ih _ _ hrec]
        simp [← hm]

/-- Witness for C7 at a concrete two-attachment submission (a create
followed by an update of the same path). -/
theorem c7_witness :
    processAttachments noFailures []
        [{ filename := "f.txt", content := "aGk=", mime_type := "m" },
         { filename := "f.txt", content := "aGk=", mime_type := "m" }]
      = ([("f.txt", FileData.bytes [104, 105])], ["Add " ++ "f.txt", "Update " ++ "f.txt"], none) :=
  c7_loop_matches_spec []
    [{ filename := "f.txt", content := "aGk=", mime_type := "m" },
     { filename := "f.txt", content := "aGk=", mime_type := "m" }]
    [("f.txt", FileData.bytes [104, 105])] ["Add " ++ "f.txt", "Update " ++ "f.txt"] (by decide)

/-- C8: both dispatchers send `Content-Type: application/json` and the
async dispatcher bounds each attempt at 10 seconds, but the blocking
dispatcher's `requests.post` call passes no `timeout` argument, so its
attempts are unbounded — the code diverges from the claim there. -/
theorem c8_post_request_configs :
    Api.post_request_config.content_type_json = true
    ∧ Main.post_request_config.content_type_json = true
    ∧ Main.post_request_config.timeout = some 10
    ∧ Api.post_request_config.timeout = none := by
  decide

/-- C9 counterexample: run `src/server.py`'s startup against an
environment in which every variable (any candidate secret variable
included) is set to `"hunter2"`; startup succeeds, yet the configured
submission secret is the hardcoded `"Ojal2"` — that implementation does
not read the secret from the environment. -/
theorem c9_counterexample :
    Main.load_config (fun _ => some "hunter2")
      = .ok { github_token := "hunter2", valid_secret := "Ojal2" }
    ∧ ("Ojal2" : String) ≠ "hunter2" := by
  decide

/-- C9 amended: in both implementations startup fails when `GITHUB_TOKEN`
is absent (or empty, which Python's truthiness also rejects); the
submission secret is environment-sourced with the local fallback `"Ojal2"`
only in `src/api/server.py` (`SECRET_FORM`); `src/server.py` uses the
hardcoded constant `"Ojal2"` regardless of the environment. -/
theorem c9_startup_config (env : String → Option String) :
    ((env "GITHUB_TOKEN" = none ∨ env "GITHUB_TOKEN" = some "") →
       Api.load_config env = .err "Set the GITHUB_TOKEN environment variable in Vercel"
       ∧ Main.load_config env = .err "Set the GITHUB_TOKEN environment variable")
    ∧ (∀ t, env "GITHUB_TOKEN" = some t → t ≠ "" →
       Api.load_config env = .ok { github_token := t, secret_form := (env "SECRET_FORM").getD "Ojal2" }
       ∧ Main.load_config env = .ok { github_token := t, valid_secret := "Ojal2" }) := by
  constructor
  · rintro (h | h) <;> exact ⟨by simp [Api.load_config, h], by simp [Main.load_config, h]⟩
  · intro t h ht
    exact ⟨by simp [Api.load_config, h, ht], by simp [Main.load_config, h, ht, Main.VALID_SECRET]⟩

/-- Witness for C9 at a concrete environment holding only the token. -/
theorem c9_witness :
    Api.load_config (fun v => if v = "GITHUB_TOKEN" then some "tok" else none)
      = .ok { github_token := "tok", secret_form := "Ojal2" }
    ∧ Main.load_config (fun v => if v = "GITHUB_TOKEN" then some "tok" else none)
      = .ok { github_token := "tok", valid_secret := "Ojal2" } :=
  (c9_startup_config (fun v => if v = "GITHUB_TOKEN" then some "tok" else none)).2
    "tok" (by decide) (by decide)

/-- C10: base64 validity is not checked before side effects begin: for a
submission whose second attachment's content `"A"` is invalid base64, both
variants of `init_or_update_repo` raise an uncaught decoding error only
after the repository has been resolved and the first attachment has been
written; that first write remains in place, while the failing and later
attachments, the README and the LICENSE are never written. -/
theorem c10_late_decode_failure :
    Api.init_or_update_repo { repoExists := true, repo := [], login := "u", latestSha := "s" }
        noFailures "demo" 2 "b" "T"
        [{ filename := "a.txt", content := "aGk=", mime_type := "m" },
         { filename := "b.txt", content := "A", mime_type := "m" },
         { filename := "c.txt", content := "aGk=", mime_type := "m" }]
      = { repoAfter := [("a.txt", FileData.bytes [104, 105])], createdRepo := none,
          msgs := ["Add a.txt"],
          error := some "binascii.Error: invalid base64 in attachment b.txt", result := none }
    ∧ Main.init_or_update_repo { repoExists := true, repo := [], login := "u", latestSha := "s" }
        noFailures "demo" 2 "b" "T"
        [{ filename := "a.txt", content := "aGk=", mime_type := "m" },
         { filename := "b.txt", content := "A", mime_type := "m" },
         { filename := "c.txt", content := "aGk=", mime_type := "m" }]
      = { repoAfter := [("a.txt", FileData.bytes [104, 105])], createdRepo := none,
          msgs := ["Add a.txt"],
          error := some "binascii.Error: invalid base64 in attachment b.txt", result := none } := by
  decide
